import Mathlib

/-!
Shallow embedding of lib/writeResources.js of the gltf-pipeline fork.

The JavaScript source externalizes every embedded binary payload of a glTF
document (buffers, images, shaders) as exactly one of: inline base64 data URI,
a bufferView appended to the shared buffer pool, or a separate file collected
in the SeparateResourceSink.  Images first pass through a transcode pipeline
(sniff, optional WebP decode, optional basis encode xor JPEG recompress,
final read-back) realized with temp files and external processes.

Machine-level conventions of the embedding:
- JavaScript objects with dynamic fields become structures with Option fields;
  a deleted field is none.
- The extras._pipeline bag of a resource (source, resourceId, relativePath)
  is flattened into the Resource structure.
- Byte buffers are List Nat; a source that is a JavaScript string is the
  Source.str constructor (writeBufferView converts it with Buffer.from,
  writeDataUri hands it to toString, which on strings returns the string
  itself, base64 argument notwithstanding).
- The filesystem visible to the transcode pipeline is an association list
  from path to bytes; fs.writeFile, fs.readFile, fs.unlinkSync become
  fsWrite, fsRead, fsUnlink.
- External codecs (getImageExtension, DWebp, basisu, gm) are collaborators
  outside this repository; they are oracle fields of Env, so theorems
  quantify over their behavior.
-/

namespace GltfPipeline

/-- JavaScript runtime errors and rejection values are carried as strings. -/
abbrev Err := String

/-- A dynamically typed JavaScript value as stored in writtenResourceMap and
assigned to the uri or bufferView field: either a string or a number. -/
inductive JsVal where
  | str (s : String)
  | num (n : Nat)
deriving DecidableEq

/-- An extras._pipeline.source value: a byte Buffer or a JavaScript string. -/
inductive Source where
  | str (s : String)
  | buf (b : List Nat)
deriving DecidableEq

/-- Buffer.from on a string encodes UTF-8; on a Buffer it is the identity.
Mirrors the conversion at lines 224-226 of writeResources.js. -/
def Source.toBuffer : Source → List Nat
  | .str s => (s.toUTF8.toList.map (fun b => b.toNat))
  | .buf b => b

/-- The base64 alphabet. -/
def base64Table : List Char :=
  "ABCDEFGHIJKLMNOPQRSTUVWXYZabcdefghijklmnopqrstuvwxyz0123456789+/".toList

/-- One base64 digit. -/
def b64c (n : Nat) : Char := base64Table.getD (n % 64) '?'

/-- Standard base64 of a byte list, as Buffer.toString with the base64
encoding produces. -/
def base64Encode : List Nat → String
  | [] => ""
  | [a] =>
    String.mk [b64c (a / 4), b64c (a % 4 * 16)] ++ "=="
  | [a, b] =>
    String.mk [b64c (a / 4), b64c (a % 4 * 16 + b / 16), b64c (b % 16 * 4)] ++ "="
  | a :: b :: c :: rest =>
    String.mk [b64c (a / 4), b64c (a % 4 * 16 + b / 16),
               b64c (b % 16 * 4 + c / 64), b64c (c % 64)] ++ base64Encode rest

/-- source.toString with a base64 argument: base64 for a Buffer; for a
JavaScript string the argument is ignored and the string returns itself. -/
def Source.toBase64 : Source → String
  | .str s => s
  | .buf b => base64Encode b

/-- Modelled from the spec: mimeTypeFromExtension is the mime package plus the
three custom registrations at the top of writeResources.js (.glsl as
text/plain, .basis as image/basis, .ktx2 as image/ktx2). -/
def mimeGetType (extension : String) : String :=
  if extension == ".glsl" then "text/plain"
  else if extension == ".basis" then "image/basis"
  else if extension == ".ktx2" then "image/ktx2"
  else if extension == ".bin" then "application/octet-stream"
  else if extension == ".png" then "image/png"
  else if extension == ".jpg" then "image/jpeg"
  else if extension == ".webp" then "image/webp"
  else "application/octet-stream"

/-- Association-list lookup, the model of JavaScript property access m[k]. -/
def lookupA {α : Type} : List (String × α) → String → Option α
  | [], _ => none
  | (k2, v) :: rest, k => if k == k2 then some v else lookupA rest k

/-- Association-list store, the model of JavaScript assignment m[k] = v. -/
def insertA {α : Type} : List (String × α) → String → α → List (String × α)
  | [], k, v => [(k, v)]
  | (k2, v2) :: rest, k, v =>
    if k == k2 then (k, v) :: rest else (k2, v2) :: insertA rest k v

/-- A glTF resource entity (buffer, image, or shader), with the fields that
writeResources.js reads or writes; extras._pipeline is flattened in. -/
structure Resource where
  name : Option String := none
  uri : Option JsVal := none
  bufferView : Option JsVal := none
  mimeType : Option String := none
  type : Option Nat := none
  source : Source := .buf []
  resourceId : Option String := none
  relativePath : Option String := none
deriving DecidableEq

/-- A glTF program entity, read by getProgram. -/
structure Program where
  name : Option String := none
  fragmentShader : Option Nat := none
  vertexShader : Option Nat := none
deriving DecidableEq

/-- The object stored under the KHR_texture_basisu key of a texture. -/
structure KhrTextureBasisu where
  source : Option Nat
deriving DecidableEq

/-- A glTF texture entity, as touched by the texture pass of writeResources. -/
structure Texture where
  source : Option Nat := none
  extensions : Option KhrTextureBasisu := none
deriving DecidableEq

/-- The glTF document, restricted to the entity arrays writeResources.js
touches.  bufferPool is the state behind the appendToBufferPool collaborator
(addBuffer): the list of byte payloads appended so far, indexed by
bufferView index. -/
structure Gltf where
  buffers : List Resource := []
  images : List Resource := []
  shaders : List Resource := []
  textures : List Texture := []
  programs : List Program := []
  extensionsRequired : List String := []
  bufferPool : List (List Nat) := []
deriving DecidableEq

/-- The bufferStorage option object; its buffer property may start absent. -/
structure BufferStorage where
  buffer : Option (List Nat) := none
deriving DecidableEq

/-- The options record (lines 38-56).  The JavaScript defaulting of the four
boolean flags to false is represented by the Bool field types; sinks that JS
mutates through the options object (separateResources, bufferStorage) are
carried here as well. -/
structure Options where
  name : Option String := none
  separateBuffers : Bool := false
  separateTextures : Bool := false
  separateShaders : Bool := false
  dataUris : Bool := false
  encodeBasis : Bool := false
  basisLinear : Bool := false
  basisQuality : Option Nat := none
  decodeWebP : Bool := false
  jpegCompressionRatio : Option Nat := none
  bufferStorage : Option BufferStorage := none
  separateResources : Option (List (String × Source)) := none
deriving DecidableEq

/-- The writtenResourceMap: resourceId to produced target. -/
abbrev RMap := List (String × JsVal)

/-- The temp filesystem: path to file bytes. -/
abbrev FileSystem := List (String × List Nat)

/-- fs.writeFile (and the file an external encoder produces): store bytes. -/
def fsWrite (fs : FileSystem) (path : String) (data : List Nat) : FileSystem :=
  insertA fs path data

/-- fs.readFile: bytes of the file, or an ENOENT error. -/
def fsRead (fs : FileSystem) (path : String) : Except Err (List Nat) :=
  match lookupA fs path with
  | some data => .ok data
  | none => .error ("ENOENT " ++ path)

/-- fs.unlinkSync: remove the entry at the path. -/
def fsUnlink : FileSystem → String → FileSystem
  | [], _ => []
  | (k, v) :: rest, path =>
    if k == path then fsUnlink rest path else (k, v) :: fsUnlink rest path

/-- Modelled from the spec: appendToBufferPool (the addBuffer collaborator,
not under src/) appends the bytes to the shared buffer pool and returns the
new bufferView index. -/
def addBuffer (gltf : Gltf) (source : List Nat) : Gltf × Nat :=
  ({ gltf with bufferPool := gltf.bufferPool ++ [source] }, gltf.bufferPool.length)

/-- Modelled from the spec: the addExtensionsRequired collaborator (not under
src/) marks the capability as document-required. -/
def addExtensionsRequired (gltf : Gltf) (extensionName : String) : Gltf :=
  if gltf.extensionsRequired.contains extensionName then gltf
  else { gltf with extensionsRequired := gltf.extensionsRequired ++ [extensionName] }

/-- Modelled from the spec: the removeUnreachable collaborator (not under
src/) is a black box scoped to buffer-related kinds; the claims proved here
do not depend on its effect on the buffer set, so it is the identity. -/
def removeUnusedElements (gltf : Gltf) : Gltf := gltf

/-- Modelled from the spec: the mergeBuffers collaborator (not under src/) is
a black box mutating only the buffer set; the claims proved here do not
depend on its effect, so it is the identity. -/
def mergeBuffers (gltf : Gltf) (_nameHint : Option String) : Gltf := gltf

/-- writeDataUri (lines 206-211): delete bufferView, set uri to the data URI.
The source and mime fields the function reads are unaffected by the delete,
so they are read off the original record. -/
def writeDataUri (object : Resource) (extension : String) : Resource :=
  { object with
    bufferView := none
    uri := some (.str ("data:" ++ mimeGetType extension ++ ";base64," ++ object.source.toBase64)) }

/-- writeBufferView (lines 213-233): delete uri; reuse the cached bufferView
for a known resourceId, or append to the buffer pool and cache the index.
resourceId and source are unaffected by the uri delete, so they are read off
the original record. -/
def writeBufferView (gltf : Gltf) (object : Resource) (map : RMap) :
    Gltf × Resource × RMap :=
  match object.resourceId.bind (fun rid => lookupA map rid) with
  | some target => (gltf, { object with uri := none, bufferView := some target }, map)
  | none =>
    let r := addBuffer gltf object.source.toBuffer
    let map2 := match object.resourceId with
      | some rid => insertA map rid (.num r.2)
      | none => map
    (r.1, { object with uri := none, bufferView := some (.num r.2) }, map2)

/-- WebGLConstants.FRAGMENT_SHADER. -/
def webglFragmentShader : Nat := 35632

/-- The scan inside getProgram (ForEach.program, lines 235-244). -/
def getProgramGo (shaderIndex : Nat) : List Program → Nat → Option (Program × Nat)
  | [], _ => none
  | p :: rest, i =>
    if p.fragmentShader == some shaderIndex || p.vertexShader == some shaderIndex then
      some (p, i)
    else getProgramGo shaderIndex rest (i + 1)

/-- getProgram (lines 235-244): first program referencing the shader index. -/
def getProgram (gltf : Gltf) (shaderIndex : Nat) : Option (Program × Nat) :=
  getProgramGo shaderIndex gltf.programs 0

/-- getName (lines 246-276).  Reading program of an undefined programInfo is
a JavaScript TypeError, carried in the error branch. -/
def getName (gltf : Gltf) (object : Resource) (index : Nat) (extension : String)
    (options : Options) : Except Err String :=
  match object.name with
  | some objectName => .ok objectName
  | none =>
    if extension == ".bin" then
      match options.name with
      | some gltfName => .ok (gltfName ++ toString index)
      | none => .ok ("buffer" ++ toString index)
    else if extension == ".glsl" then
      match getProgram gltf index with
      | none => .error "TypeError reading property program of undefined"
      | some (program, programIndex) =>
        let shaderType := if object.type == some webglFragmentShader then "FS" else "VS"
        match program.name with
        | some programName => .ok (programName ++ shaderType)
        | none =>
          match options.name with
          | some gltfName => .ok (gltfName ++ shaderType ++ toString programIndex)
          | none => .ok (shaderType.toLower ++ toString programIndex)
    else
      match options.name with
      | some gltfName => .ok (gltfName ++ toString index)
      | none => .ok ("image" ++ toString index)

/-- The while loop of getRelativePath (lines 289-293), with enough fuel to
visit one candidate per sink entry plus one. -/
def collisionGo (sink : List (String × Source)) (name extension : String) :
    Nat → Nat → String → String
  | 0, _, rel => rel
  | fuel + 1, number, rel =>
    if (lookupA sink rel).isSome then
      collisionGo sink name extension fuel (number + 1)
        (name ++ "_" ++ toString number ++ extension)
    else rel

/-- The collision scan of getRelativePath starting from name plus extension. -/
def collisionPath (sink : List (String × Source)) (name extension : String) : String :=
  collisionGo sink name extension (sink.length + 1) 1 (name ++ extension)

/-- getRelativePath (lines 278-295).  The while condition reads
options.separateResources[relativePath] without a definedness guard, so a
missing separateResources option is a TypeError. -/
def getRelativePath (gltf : Gltf) (object : Resource) (index : Nat)
    (extension : String) (options : Options) : Except Err String :=
  match object.relativePath with
  | some relativePath => .ok (relativePath.replace "\\" "/")
  | none =>
    match getName gltf object index extension options with
    | .error e => .error e
    | .ok name =>
      match options.separateResources with
      | none => .error "TypeError reading property of undefined separateResources"
      | some sink => .ok (collisionPath sink name extension)

/-- writeFile (lines 297-318): delete bufferView; reuse the cached uri for a
known resourceId, else resolve a relative path, store the bytes in the sink
when it is defined, set uri, and cache it.  The fields read after the delete
(resourceId, source, and the naming fields getRelativePath uses) are
unaffected by it, so they are read off the original record. -/
def writeFile (gltf : Gltf) (object : Resource) (index : Nat) (extension : String)
    (map : RMap) (options : Options) : Except Err (Resource × RMap × Options) :=
  match object.resourceId.bind (fun rid => lookupA map rid) with
  | some target => .ok ({ object with bufferView := none, uri := some target }, map, options)
  | none =>
    match getRelativePath gltf object index extension options with
    | .error e => .error e
    | .ok relativePath =>
      let options2 := match options.separateResources with
        | some sink =>
          { options with separateResources := some (insertA sink relativePath object.source) }
        | none => options
      let map2 := match object.resourceId with
        | some rid => insertA map rid (.str relativePath)
        | none => map
      .ok ({ object with bufferView := none, uri := some (.str relativePath) }, map2, options2)

/-- writeResource (lines 196-204): route to the separate-file, data-URI, or
bufferView representation. -/
def writeResource (gltf : Gltf) (object : Resource) (index : Nat)
    (separate dataUris : Bool) (extension : String) (map : RMap)
    (options : Options) : Except Err (Gltf × Resource × RMap × Options) :=
  if separate then
    match writeFile gltf object index extension map options with
    | .error e => .error e
    | .ok (object2, map2, options2) => .ok (gltf, object2, map2, options2)
  else if dataUris then
    .ok (gltf, writeDataUri object extension, map, options)
  else
    let r := writeBufferView gltf object map
    .ok (r.1, r.2.1, r.2.2, options)

/-- The mutable state writeResources threads through its passes: the document,
the writtenResourceMap, the options object (holding the two caller sinks that
the JavaScript mutates through it), and the temp filesystem. -/
structure St where
  gltf : Gltf
  map : RMap
  options : Options
  fs : FileSystem
deriving DecidableEq

/-- The external collaborators of the image pipeline, as oracles:
sniff is getImageExtension (format by byte content), dwebp the DWebp decoder,
basisu the command-line basis encoder (bytes, linear flag, quality), gm the
raster re-encoder (bytes, quality), uid the per-image uuid. -/
structure Env where
  sniff : Source → String
  dwebp : Source → Except Err (List Nat)
  basisu : List Nat → Bool → Option Nat → Except Err (List Nat)
  gm : List Nat → Nat → Except Err (List Nat)
  uid : Nat → String

/-- The temp path os.tmpdir() slash image-uid-extension. -/
def imgPath (uid extension : String) : String :=
  "/tmp/image-" ++ uid ++ extension

/-- JavaScript truthiness of an optional number (0 and undefined are falsy),
as the jpegCompressionRatio test at line 149 applies it. -/
def jsTruthyNat : Option Nat → Bool
  | some n => n != 0
  | none => false

/-- Replace the image at an index of the document. -/
def setImage (st : St) (i : Nat) (image : Resource) : St :=
  { st with gltf := { st.gltf with images := st.gltf.images.set i image } }

/-- writeResource lifted to the threaded state. -/
def writeResourceSt (st : St) (object : Resource) (index : Nat)
    (separate dataUris : Bool) (extension : String) : Except Err (St × Resource) :=
  match writeResource st.gltf object index separate dataUris extension st.map st.options with
  | .error e => .error e
  | .ok (gltf2, object2, map2, options2) =>
    .ok ({ st with gltf := gltf2, map := map2, options := options2 }, object2)

/-- Lines 107-128 of writeImage: sniff the source; on the WebP-decode branch
run the decoder, which writes the decoded png temp file; otherwise write the
source bytes to the temp file under the sniffed extension.  Resolves to the
filesystem and the extension of the temp file. -/
def imageStage1 (env : Env) (options : Options) (fs : FileSystem)
    (image : Resource) (uid : String) : Except Err (FileSystem × String) :=
  if env.sniff image.source == ".webp" && options.decodeWebP then
    match env.dwebp image.source with
    | .error e => .error e
    | .ok data => .ok (fsWrite fs (imgPath uid ".png") data, ".png")
  else
    .ok (fsWrite fs (imgPath uid (env.sniff image.source)) image.source.toBuffer,
      env.sniff image.source)

/-- Lines 129-163 of writeImage: the basis-encode branch (guarded by
encodeBasis and by the extension differing from the undotted literal ktx2),
else the JPEG-recompress branch, else a pass-through.  The basis branch runs
the encoder over the temp file, reads the produced ktx2 file back into the
image source, and unlinks the input temp file; the JPEG branch runs the
re-encoder, producing the jpg temp file, and unlinks nothing.  Resolves to
the filesystem, the source bytes the branch assigned (if any), and the
extension handed to the final stage. -/
def imageStage2 (env : Env) (options : Options) (fs : FileSystem)
    (uid extension : String) : Except Err (FileSystem × Option (List Nat) × String) :=
  if options.encodeBasis && extension != "ktx2" then
    match fsRead fs (imgPath uid extension) with
    | .error e => .error e
    | .ok input =>
      match env.basisu input options.basisLinear options.basisQuality with
      | .error e => .error e
      | .ok out =>
        match fsRead (fsWrite fs (imgPath uid ".ktx2") out) (imgPath uid ".ktx2") with
        | .error e => .error e
        | .ok data =>
          .ok (fsUnlink (fsWrite fs (imgPath uid ".ktx2") out) (imgPath uid extension),
            some data, ".ktx2")
  else if jsTruthyNat options.jpegCompressionRatio then
    match fsRead fs (imgPath uid extension) with
    | .error e => .error e
    | .ok input =>
      match env.gm input (options.jpegCompressionRatio.getD 0) with
      | .error e => .error e
      | .ok out => .ok (fsWrite fs (imgPath uid ".jpg") out, none, ".jpg")
  else
    .ok (fs, none, extension)

/-- Lines 165-177 of writeImage: read the temp file of the final extension
back into the image source and unlink it. -/
def imageStage3 (fs : FileSystem) (uid extension : String) :
    Except Err (FileSystem × List Nat) :=
  match fsRead fs (imgPath uid extension) with
  | .error e => .error e
  | .ok data => .ok (fsUnlink fs (imgPath uid extension), data)

/-- writeImage (lines 105-190): the staged transcode chain, then re-sniff,
externalize through writeResource, mark KHR_texture_basisu required when the
final extension is .ktx2, and stamp the mime type when the image ended as a
bufferView.  The pair carries the state at the point of failure (the
JavaScript mutates the shared document in place, so a rejection does not roll
back the mutations already performed). -/
def writeImage (env : Env) (st : St) (i : Nat) : St × Option Err :=
  match st.gltf.images.get? i with
  | none => (st, none)
  | some image =>
    let uid := env.uid i
    match imageStage1 env st.options st.fs image uid with
    | .error e => (st, some e)
    | .ok (fs1, ext1) =>
      match imageStage2 env st.options fs1 uid ext1 with
      | .error e => ({ st with fs := fs1 }, some e)
      | .ok (fs2, newSource, ext2) =>
        let image2 := match newSource with
          | some data => { image with source := .buf data }
          | none => image
        let st2 := setImage { st with fs := fs2 } i image2
        match imageStage3 fs2 uid ext2 with
        | .error e => (st2, some e)
        | .ok (fs3, data) =>
          let image3 := { image2 with source := .buf data }
          let st3 := setImage { st2 with fs := fs3 } i image3
          let extension := env.sniff image3.source
          match writeResourceSt st3 image3 i st.options.separateTextures st.options.dataUris extension with
          | .error e => (st3, some e)
          | .ok (st4, image4) =>
            let st5 := if extension == ".ktx2" then
                { st4 with gltf := addExtensionsRequired st4.gltf "KHR_texture_basisu" }
              else st4
            let image5 := if image4.bufferView.isSome then
                { image4 with mimeType := some (mimeGetType extension) }
              else image4
            (setImage st5 i image5, none)

/-- writeShader (lines 192-194). -/
def writeShader (st : St) (i : Nat) : Except Err St :=
  match st.gltf.shaders.get? i with
  | none => .ok st
  | some shader =>
    match writeResourceSt st shader i st.options.separateShaders st.options.dataUris ".glsl" with
    | .error e => .error e
    | .ok (st2, shader2) =>
      .ok { st2 with gltf := { st2.gltf with shaders := st2.gltf.shaders.set i shader2 } }

/-- writeBufferStorage (lines 98-103): concatenate the buffer source onto the
growable region; Buffer.concat rejects a string source with a TypeError. -/
def writeBufferStorage (buffer : Resource) (options : Options) : Except Err Options :=
  match options.bufferStorage with
  | none => .error "TypeError reading property buffer of undefined"
  | some storage =>
    match buffer.source with
    | .str _ => .error "TypeError Buffer.concat expects Buffers"
    | .buf b =>
      let combined := storage.buffer.getD []
      .ok { options with bufferStorage := some { buffer := some (combined ++ b) } }

/-- writeBuffer (lines 90-96): to the storage sink when bufferStorage is
defined and buffers are not separated; otherwise through writeResource with
the dataUris argument hardwired to true. -/
def writeBuffer (st : St) (i : Nat) : Except Err St :=
  match st.gltf.buffers.get? i with
  | none => .ok st
  | some buffer =>
    if st.options.bufferStorage.isSome && !st.options.separateBuffers then
      match writeBufferStorage buffer st.options with
      | .error e => .error e
      | .ok options2 => .ok { st with options := options2 }
    else
      match writeResourceSt st buffer i st.options.separateBuffers true ".bin" with
      | .error e => .error e
      | .ok (st2, buffer2) =>
        .ok { st2 with gltf := { st2.gltf with buffers := st2.gltf.buffers.set i buffer2 } }

/-- The texture pass (lines 77-85): under encodeBasis, overwrite the
extensions of every texture with a KHR_texture_basisu entry pointing at the
texture source image index. -/
def writeTextureExtensions (options : Options) (texture : Texture) : Texture :=
  if options.encodeBasis then
    { texture with extensions := some { source := texture.source } }
  else texture

/-- Modelled from the spec: ForEach.imageAsync (not under src/) awaits the
handler per image in sequence; the first rejection aborts the pass.  The pair
carries the state reached so far and the first error. -/
def runImages (env : Env) : St → List Nat → St × Option Err
  | st, [] => (st, none)
  | st, i :: rest =>
    match writeImage env st i with
    | (st2, some e) => (st2, some e)
    | (st2, none) => runImages env st2 rest

/-- Modelled from the spec: the synchronous ForEach passes (not under src/)
visit each index in order; a thrown error aborts the pass. -/
def runPass (f : St → Nat → Except Err St) : St → List Nat → St × Option Err
  | st, [] => (st, none)
  | st, i :: rest =>
    match f st i with
    | .error e => (st, some e)
    | .ok st2 => runPass f st2 rest

/-- writeResources (lines 51-88): images, then shaders, then the
removeUnusedElements and mergeBuffers collaborators, then buffers, then the
texture pass.  The result pairs the final in-place state with the first
error (the rejection value of the returned promise), none on success. -/
def writeResources (env : Env) (gltf : Gltf) (options : Options) : St × Option Err :=
  let st0 : St := { gltf := gltf, map := [], options := options, fs := [] }
  match runImages env st0 (List.range gltf.images.length) with
  | (st, some e) => (st, some e)
  | (st1, none) =>
    match runPass writeShader st1 (List.range st1.gltf.shaders.length) with
    | (st, some e) => (st, some e)
    | (st2, none) =>
      let st3 := { st2 with gltf := mergeBuffers (removeUnusedElements st2.gltf) st2.options.name }
      match runPass writeBuffer st3 (List.range st3.gltf.buffers.length) with
      | (st, some e) => (st, some e)
      | (st4, none) =>
        let st5 := { st4 with gltf := { st4.gltf with
          textures := st4.gltf.textures.map (writeTextureExtensions st4.options) } }
        (st5, none)

/-- Whether an Except value is the ok constructor (promise fulfilled rather
than rejected). -/
def isOkE {α : Type} : Except Err α → Bool
  | .ok _ => true
  | .error _ => false

/-! Concrete scenario data used by the closed theorems and witnesses below. -/

/-- Bytes that the scenario sniffers classify as the ktx2 container. -/
def ktx2Out : List Nat := [171, 75, 84, 88]

/-- An image whose bytes already sniff as the ktx2 container. -/
def ktx2Image : Resource := { source := .buf ktx2Out }

/-- One ktx2 image, encodeBasis requested. -/
def c3St : St :=
  { gltf := { images := [ktx2Image] }, map := [], options := { encodeBasis := true }, fs := [] }

/-- Oracles for the already-ktx2 scenario: every sniff yields .ktx2 and the
basis encoder rejects with a chosen error, so an encoder invocation is
observable as that error surfacing. -/
def c3EnvFail (e : Err) : Env :=
  { sniff := fun _ => ".ktx2"
    dwebp := fun _ => .error "unused"
    basisu := fun _ _ _ => .error e
    gm := fun _ _ => .error "unused"
    uid := fun _ => "u" }

/-- Oracles for the already-ktx2 scenario with a succeeding basis encoder. -/
def c3EnvOk : Env := { c3EnvFail "x" with basisu := fun _ _ _ => .ok [1, 2, 3] }

/-- A png-classified image for the JPEG re-compression scenario. -/
def c4Image : Resource := { source := .buf [137, 80] }

/-- Oracles for the JPEG scenario: sniff yields .png, the raster re-encoder
succeeds. -/
def c4Env : Env :=
  { sniff := fun _ => ".png"
    dwebp := fun _ => .error "unused"
    basisu := fun _ _ _ => .error "unused"
    gm := fun _ _ => .ok [9, 9]
    uid := fun _ => "u" }

/-- One png image, jpegCompressionRatio set, encodeBasis not set. -/
def c4St : St :=
  { gltf := { images := [c4Image] }, map := []
    options := { jpegCompressionRatio := some 80 }, fs := [] }

/-- A png-classified image for the basis-encode success scenario. -/
def c6Image : Resource := { source := .buf [137, 80, 78, 71] }

/-- One image owned by one texture. -/
def c6Gltf : Gltf := { images := [c6Image], textures := [{ source := some 0 }] }

/-- encodeBasis requested, everything else defaulted. -/
def c6Opts : Options := { encodeBasis := true }

/-- Oracles for the basis-encode success scenario: sniff classifies the
encoder output as .ktx2 and everything else as .png; the encoder succeeds. -/
def c6Env : Env :=
  { sniff := fun s => if s == Source.buf ktx2Out then ".ktx2" else ".png"
    dwebp := fun _ => .error "unused"
    basisu := fun _ _ _ => .ok ktx2Out
    gm := fun _ _ => .error "unused"
    uid := fun i => toString i }

/-- The initial threaded state of the basis-encode success scenario. -/
def c5St : St := { gltf := c6Gltf, map := [], options := c6Opts, fs := [] }

/-- A replacement raster re-encoder oracle for the precedence scenario. -/
def c5Gm : List Nat → Nat → Except Err (List Nat) := fun _ _ => .ok [5]

/-- Two images for the failure-propagation scenario. -/
def c8Gltf : Gltf := { images := [{ source := .buf [1] }, { source := .buf [2] }] }

/-- Oracles for the failure-propagation scenario: the basis encoder succeeds
on the first image's bytes and rejects with a chosen error on the second
image's bytes. -/
def c8Env (e : Err) : Env :=
  { sniff := fun s => if s == Source.buf ktx2Out then ".ktx2" else ".png"
    dwebp := fun _ => .error "unused"
    basisu := fun input _ _ => if input == [2] then .error e else .ok ktx2Out
    gm := fun _ _ => .error "unused"
    uid := fun i => toString i }

/-- A buffer resource for the data-URI buffer scenario. -/
def c9Buffer : Resource := { source := .buf [0, 1, 2] }

/-- A resource tagged with resourceId r, for the dedup scenario. -/
def c1Res : Resource := { source := .buf [1], resourceId := some "r" }

/-- A second resource sharing resourceId r. -/
def c1Res2 : Resource := { source := .buf [2], resourceId := some "r" }

/-- An initially empty sink for the dedup separate-file scenario. -/
def c1Opts0 : Options := { separateResources := some [] }

/-- The writtenResourceMap after the first separate-file write of c1Res. -/
def c1Map : RMap := [("r", .str "buffer0.bin")]

/-- The options after the first separate-file write of c1Res. -/
def c1Opts1 : Options := { separateResources := some [("buffer0.bin", Source.buf [1])] }

/-- c1Res as externalized by the first separate-file write. -/
def c1FileOut : Resource := { c1Res with bufferView := none, uri := some (.str "buffer0.bin") }

/-- One buffer, no bufferStorage, separateBuffers false, dataUris false. -/
def c9St : St :=
  { gltf := { buffers := [c9Buffer] }, map := [], options := {}, fs := [] }

/-! Helper lemmas about the association-list primitives. -/

theorem lookupA_insertA_self {α : Type} (m : List (String × α)) (k : String) (v : α) :
    lookupA (insertA m k v) k = some v := by
  induction m with
  | nil => simp [insertA, lookupA]
  | cons head tail ih =>
    by_cases h : k = head.1
    · simp [insertA, h, lookupA]
    · have hb : (k == head.1) = false := beq_eq_false_iff_ne.mpr h
      simp [insertA, hb, lookupA, ih]

theorem lookupA_insertA_ne {α : Type} (m : List (String × α)) (k k2 : String) (v : α)
    (h : k2 ≠ k) : lookupA (insertA m k v) k2 = lookupA m k2 := by
  induction m with
  | nil => simp [insertA, lookupA, beq_eq_false_iff_ne.mpr h]
  | cons head tail ih =>
    obtain ⟨k3, v3⟩ := head
    by_cases h2 : k = k3
    · subst h2
      simp [insertA, lookupA, beq_eq_false_iff_ne.mpr h]
    · have hb : (k == k3) = false := beq_eq_false_iff_ne.mpr h2
      simp [insertA, hb, lookupA, ih]

theorem lookupA_fsUnlink_self (fs : FileSystem) (p : String) :
    lookupA (fsUnlink fs p) p = none := by
  induction fs with
  | nil => simp [fsUnlink, lookupA]
  | cons head tail ih =>
    obtain ⟨k3, v3⟩ := head
    by_cases h : k3 = p
    · simpa [fsUnlink, h] using ih
    · have hb : (k3 == p) = false := beq_eq_false_iff_ne.mpr h
      have hb2 : (p == k3) = false := beq_eq_false_iff_ne.mpr (Ne.symm h)
      simpa [fsUnlink, hb, lookupA, hb2] using ih

theorem lookupA_fsUnlink_ne (fs : FileSystem) (p q : String) (h : q ≠ p) :
    lookupA (fsUnlink fs p) q = lookupA fs q := by
  induction fs with
  | nil => simp [fsUnlink, lookupA]
  | cons head tail ih =>
    obtain ⟨k3, v3⟩ := head
    by_cases h2 : k3 = p
    · have hq : (q == k3) = false := by
        refine beq_eq_false_iff_ne.mpr ?_
        intro hqe
        exact h (hqe.trans h2)
      have hb : (k3 == p) = true := beq_iff_eq.mpr h2
      simp [fsUnlink, hb, lookupA, hq, ih]
    · have hb : (k3 == p) = false := beq_eq_false_iff_ne.mpr h2
      simp [fsUnlink, hb, lookupA, ih]

/-- After a successful first stage, the temp file under the resolved
extension exists on the filesystem. -/
theorem imageStage1_file_written (env : Env) (options : Options) (fs : FileSystem)
    (image : Resource) (uid : String) (fs1 : FileSystem) (ext1 : String)
    (h : imageStage1 env options fs image uid = .ok (fs1, ext1)) :
    (lookupA fs1 (imgPath uid ext1)).isSome := by
  unfold imageStage1 at h
  split at h
  · split at h
    · exact absurd h (by simp)
    · simp only [Except.ok.injEq, Prod.mk.injEq] at h
      obtain ⟨hfs, hext⟩ := h
      subst hfs; subst hext
      simp [fsWrite, lookupA_insertA_self]
  · simp only [Except.ok.injEq, Prod.mk.injEq] at h
    obtain ⟨hfs, hext⟩ := h
    subst hfs; subst hext
    simp [fsWrite, lookupA_insertA_self]

/-! The claims. -/

/-- C2: whenever writeResource succeeds, the externalized resource holds
exactly one of uri or bufferView: the data-URI and separate-file paths delete
bufferView before setting uri, the bufferView path deletes uri before setting
bufferView. -/
theorem writeResource_exactly_one_target (gltf : Gltf) (object : Resource)
    (index : Nat) (separate dataUris : Bool) (extension : String) (map : RMap)
    (options : Options) (g : Gltf) (o : Resource) (m : RMap) (opts : Options)
    (h : writeResource gltf object index separate dataUris extension map options
      = .ok (g, o, m, opts)) :
    (o.uri.isSome ∧ o.bufferView = none) ∨ (o.uri = none ∧ o.bufferView.isSome) := by
  unfold writeResource at h
  split at h
  · -- separate-file path
    unfold writeFile at h
    rcases hc : object.resourceId.bind (fun rid => lookupA map rid) with - | target
    · rw [hc] at h
      rcases hrel : getRelativePath gltf object index extension options with e | rel
      · rw [hrel] at h
        exact absurd h (by simp)
      · rw [hrel] at h
        simp only [Except.ok.injEq, Prod.mk.injEq] at h
        obtain ⟨-, ho, -, -⟩ := h
        subst ho
        left; simp
    · rw [hc] at h
      simp only [Except.ok.injEq, Prod.mk.injEq] at h
      obtain ⟨-, ho, -, -⟩ := h
      subst ho
      left; simp
  · split at h
    · -- data-URI path
      simp only [Except.ok.injEq, Prod.mk.injEq] at h
      obtain ⟨-, ho, -, -⟩ := h
      subst ho
      left
      simp [writeDataUri]
    · -- bufferView path
      unfold writeBufferView at h
      rcases hc : object.resourceId.bind (fun rid => lookupA map rid) with - | target <;>
        rw [hc] at h <;>
        simp only [Except.ok.injEq, Prod.mk.injEq] at h <;>
        obtain ⟨-, ho, -, -⟩ := h <;>
        subst ho <;>
        (right; simp)

/-- C2 witness: the theorem applied to a concrete successful writeResource
call on the data-URI path. -/
theorem writeResource_exactly_one_target_witness :
    ((writeDataUri { source := .buf [7] } ".bin").uri.isSome ∧
        (writeDataUri { source := .buf [7] } ".bin").bufferView = none) ∨
      ((writeDataUri { source := .buf [7] } ".bin").uri = none ∧
        (writeDataUri { source := .buf [7] } ".bin").bufferView.isSome) :=
  writeResource_exactly_one_target {} { source := .buf [7] } 0 false true ".bin" [] {}
    {} (writeDataUri { source := .buf [7] } ".bin") [] {} rfl

/-- C3: refuted on the code.  The guard at line 130 compares the dotted
sniffed extension against the undotted literal ktx2, which never matches, so
for an image already in the ktx2 container with encodeBasis requested the
external basis encoder IS invoked: an encoder rejection surfaces as the
image's error, and even a successful encoder run ends in a read error,
because the encoder output path equals the input temp path, which the basis
stage unlinks before the final read-back. -/
theorem writeImage_runs_basisu_on_ktx2 :
    (∀ e : Err, (writeImage (c3EnvFail e) c3St 0).2 = some e) ∧
    (writeImage c3EnvOk c3St 0).2 = some ("ENOENT " ++ imgPath "u" ".ktx2") :=
  ⟨fun _ => rfl, rfl⟩

/-- C4: counterexample.  A successful JPEG re-compression chain ends with the
produced jpg temp file deleted but the original png temp file still present
on the filesystem, refuting the claim that both are deleted by the time the
image reaches the externalization strategy. -/
theorem writeImage_jpeg_leaves_original_tempfile :
    (writeImage c4Env c4St 0).2 = none ∧
    lookupA (writeImage c4Env c4St 0).1.fs (imgPath "u" ".png") = some [137, 80] ∧
    lookupA (writeImage c4Env c4St 0).1.fs (imgPath "u" ".jpg") = none :=
  ⟨rfl, rfl, rfl⟩

/-- C6: one image, encodeBasis set, transcode succeeding: the operation
fulfills; the document gains the KHR_texture_basisu required extension; the
owning texture gains a KHR_texture_basisu extensions entry whose source is
the texture's image index; the image's final bytes sniff as .ktx2, its mime
type is stamped image/ktx2, and it is embedded as bufferView 0. -/
theorem writeResources_basis_success_scenario :
    (writeResources c6Env c6Gltf c6Opts).2 = none ∧
    (writeResources c6Env c6Gltf c6Opts).1.gltf.extensionsRequired = ["KHR_texture_basisu"] ∧
    (writeResources c6Env c6Gltf c6Opts).1.gltf.textures =
      [{ source := some 0, extensions := some { source := some 0 } }] ∧
    ((writeResources c6Env c6Gltf c6Opts).1.gltf.images.map
      (fun im => (c6Env.sniff im.source, im.mimeType, im.bufferView))) =
      [(".ktx2", some "image/ktx2", some (.num 0))] :=
  ⟨rfl, rfl, rfl, rfl⟩

/-- C8: with two images where the second image's transcode fails, the whole
writeResources operation rejects with exactly that error, unwrapped, for any
error value; and the document mutations performed for the first image before
the failure (its bufferView externalization and the required-extension mark)
are still present in the final state: nothing is rolled back and no success
value accompanies the error. -/
theorem writeResources_rejects_first_error_unrolled (e : Err) :
    (writeResources (c8Env e) c8Gltf c6Opts).2 = some e ∧
    ((writeResources (c8Env e) c8Gltf c6Opts).1.gltf.images.get? 0).map
      (fun im => im.bufferView) = some (some (.num 0)) ∧
    (writeResources (c8Env e) c8Gltf c6Opts).1.gltf.extensionsRequired =
      ["KHR_texture_basisu"] :=
  ⟨rfl, rfl, rfl⟩

/-- C9: with no bufferStorage configured and separateBuffers false,
writeBuffer reaches writeResource with the dataUris argument hardwired to
true, so for any options record (in particular any value of the dataUris
option) the buffer is externalized as a base64 data URI and never receives a
bufferView. -/
theorem writeBuffer_always_dataUri (st : St) (i : Nat) (buffer : Resource)
    (hb : st.gltf.buffers.get? i = some buffer)
    (hstorage : st.options.bufferStorage = none)
    (hsep : st.options.separateBuffers = false) :
    writeBuffer st i = .ok { st with gltf := { st.gltf with
      buffers := st.gltf.buffers.set i (writeDataUri buffer ".bin") } } ∧
    (writeDataUri buffer ".bin").bufferView = none ∧
    (writeDataUri buffer ".bin").uri = some (.str
      ("data:" ++ mimeGetType ".bin" ++ ";base64," ++ buffer.source.toBase64)) := by
  refine ⟨?_, by simp [writeDataUri], rfl⟩
  have hb2 : st.gltf.buffers[i]? = some buffer := by simpa using hb
  simp [writeBuffer, hb2, hstorage, hsep, writeResourceSt, writeResource]

/-- C9 witness: the theorem applied to the concrete one-buffer state. -/
theorem writeBuffer_always_dataUri_witness :
    writeBuffer c9St 0 = .ok { c9St with gltf := { c9St.gltf with
      buffers := c9St.gltf.buffers.set 0 (writeDataUri c9Buffer ".bin") } } ∧
    (writeDataUri c9Buffer ".bin").bufferView = none ∧
    (writeDataUri c9Buffer ".bin").uri = some (.str
      ("data:" ++ mimeGetType ".bin" ++ ";base64," ++ c9Buffer.source.toBase64)) :=
  writeBuffer_always_dataUri c9St 0 c9Buffer rfl rfl rfl

/-- C10: for a resource with no explicit relative path whose name resolves,
getRelativePath succeeds exactly when options.separateResources is defined,
because the collision loop reads it unguarded; consequently writeFile with no
cached resourceId target propagates the TypeError when the sink is undefined,
its own guarded sink write notwithstanding. -/
theorem getRelativePath_needs_separateResources (gltf : Gltf) (object : Resource)
    (index : Nat) (extension : String) (map : RMap) (options : Options) (nm : String)
    (hrp : object.relativePath = none)
    (hname : getName gltf object index extension options = .ok nm) :
    (isOkE (getRelativePath gltf object index extension options) =
      options.separateResources.isSome) ∧
    (options.separateResources = none →
      object.resourceId.bind (fun rid => lookupA map rid) = none →
      writeFile gltf object index extension map options =
        .error "TypeError reading property of undefined separateResources") := by
  constructor
  · cases hs : options.separateResources with
    | none => simp [getRelativePath, hrp, hname, hs, isOkE]
    | some sink => simp [getRelativePath, hrp, hname, hs, isOkE]
  · intro hs hc
    simp [writeFile, hc, getRelativePath, hrp, hname, hs]

/-- C10 witness: the theorem applied to a concrete unnamed buffer resource
with no separateResources sink. -/
theorem getRelativePath_needs_separateResources_witness :
    isOkE (getRelativePath {} {} 0 ".bin" {}) = false ∧
    writeFile {} {} 0 ".bin" [] {} =
      .error "TypeError reading property of undefined separateResources" :=
  ⟨(getRelativePath_needs_separateResources {} {} 0 ".bin" [] {} "buffer0" rfl rfl).1,
    (getRelativePath_needs_separateResources {} {} 0 ".bin" [] {} "buffer0" rfl rfl).2 rfl rfl⟩

/-- The first numeric-suffix candidate of the collision loop is the name with
an underscore-1 injected before the extension. -/
theorem suffixCandidateEq (nm ext : String) :
    nm ++ "_" ++ toString 1 ++ ext = nm ++ "_1" ++ ext := by
  rw [show (toString 1 : String) = "1" from rfl, String.append_assoc nm "_" "1",
    show ("_" ++ "1" : String) = "_1" from rfl]

/-- C7: buffers at indices 0 and 1 with no explicit name, no document name
and no explicit relative path resolve to buffer0.bin and buffer1.bin with no
suffixing (the second resolved after the first occupies the sink); and
whenever the candidate name plus extension is already a sink key while the
first suffixed candidate is free, the resolved path is the name with a _1
suffix, as for the second of two resources forced to an identical name. -/
theorem getRelativePath_names_and_suffixes :
    (∀ (gltf : Gltf) (b0 b1 : Resource) (options : Options),
      b0.name = none → b0.relativePath = none →
      b1.name = none → b1.relativePath = none → options.name = none →
      getRelativePath gltf b0 0 ".bin"
        { options with separateResources := some [] } = .ok "buffer0.bin" ∧
      getRelativePath gltf b1 1 ".bin"
        { options with separateResources := some [("buffer0.bin", b0.source)] } =
        .ok "buffer1.bin") ∧
    (∀ (gltf : Gltf) (object : Resource) (index : Nat) (nm extension : String)
       (options : Options) (sink : List (String × Source)),
      object.name = some nm → object.relativePath = none →
      options.separateResources = some sink →
      (lookupA sink (nm ++ extension)).isSome = true →
      lookupA sink (nm ++ "_1" ++ extension) = none →
      getRelativePath gltf object index extension options = .ok (nm ++ "_1" ++ extension)) := by
  constructor
  · intro gltf b0 b1 options h0n h0r h1n h1r hon
    constructor
    · simp only [getRelativePath, h0r, getName, h0n, hon]
      rfl
    · simp only [getRelativePath, h1r, getName, h1n, hon]
      rfl
  · intro gltf object index nm extension options sink hn hr hs hin hfree
    have hfree2 : (lookupA sink (nm ++ "_" ++ toString 1 ++ extension)).isSome = false := by
      rw [suffixCandidateEq, hfree]; rfl
    cases sink with
    | nil => simp [lookupA] at hin
    | cons s0 stail =>
      simp only [getRelativePath, hr, getName, hn, hs, collisionPath, List.length_cons]
      simp only [collisionGo, hin, if_true, hfree2, Bool.false_eq_true, if_false]
      rw [suffixCandidateEq]

/-- C7 witness: the theorem applied to concrete unnamed buffers and to two
images forced to the explicit name tex. -/
theorem getRelativePath_names_and_suffixes_witness :
    (getRelativePath {} {} 0 ".bin"
        { separateResources := some [] } = .ok "buffer0.bin" ∧
      getRelativePath {} {} 1 ".bin"
        { separateResources := some [("buffer0.bin", ({} : Resource).source)] } =
        .ok "buffer1.bin") ∧
    getRelativePath {} { name := some "tex" } 5 ".png"
      { separateResources := some [("tex.png", .buf [])] } =
      .ok ("tex" ++ "_1" ++ ".png") :=
  ⟨getRelativePath_names_and_suffixes.1 {} {} {} {} rfl rfl rfl rfl rfl,
    getRelativePath_names_and_suffixes.2 {} { name := some "tex" } 5 "tex" ".png"
      { separateResources := some [("tex.png", .buf [])] } [("tex.png", .buf [])]
      rfl rfl rfl rfl rfl⟩

/-- C1: two resources sharing a resourceId, externalized on the bufferView
path or on the separate-file path, end with the identical target, and the
bytes are materialized exactly once.  On the bufferView path the first write
appends exactly one payload to the buffer pool, and the second write changes
neither the document, nor the map, and reuses the cached index.  On the
separate-file path the second write returns the cached uri verbatim and
leaves the map and the sink-carrying options exactly as the first write left
them. -/
theorem dedup_same_target_single_write :
    (∀ (gltf g1 g2 : Gltf) (map m1 m2 : RMap) (o1 o2 o1w o2w : Resource) (rid : String),
      o1.resourceId = some rid → o2.resourceId = some rid → lookupA map rid = none →
      writeBufferView gltf o1 map = (g1, o1w, m1) →
      writeBufferView g1 o2 m1 = (g2, o2w, m2) →
      o2w.bufferView = o1w.bufferView ∧
      g1.bufferPool = gltf.bufferPool ++ [o1.source.toBuffer] ∧
      g2 = g1 ∧ m2 = m1) ∧
    (∀ (gltf : Gltf) (map : RMap) (options : Options) (o1 o2 o1w : Resource)
       (i1 i2 : Nat) (ext : String) (rid : String) (m1 : RMap) (opts1 : Options),
      o1.resourceId = some rid → o2.resourceId = some rid → lookupA map rid = none →
      writeFile gltf o1 i1 ext map options = .ok (o1w, m1, opts1) →
      writeFile gltf o2 i2 ext m1 opts1 =
        .ok ({ o2 with bufferView := none, uri := o1w.uri }, m1, opts1)) := by
  constructor
  · intro gltf g1 g2 map m1 m2 o1 o2 o1w o2w rid h1 h2 h3 hw1 hw2
    unfold writeBufferView at hw1 hw2
    rw [h1, Option.some_bind, h3] at hw1
    simp only [Prod.mk.injEq] at hw1
    obtain ⟨hg1, ho1, hm1⟩ := hw1
    rw [h2, Option.some_bind, ← hm1, lookupA_insertA_self] at hw2
    simp only [Prod.mk.injEq] at hw2
    obtain ⟨hg2, ho2, hm2⟩ := hw2
    subst hg1 ho1 hm1 hg2 ho2 hm2
    refine ⟨rfl, by simp [addBuffer], rfl, rfl⟩
  · intro gltf map options o1 o2 o1w i1 i2 ext rid m1 opts1 h1 h2 h3 hf1
    unfold writeFile at hf1
    rw [h1, Option.some_bind, h3] at hf1
    rcases hrel : getRelativePath gltf o1 i1 ext options with e | rel
    · rw [hrel] at hf1; exact absurd hf1 (by simp)
    · rw [hrel] at hf1
      simp only [Except.ok.injEq, Prod.mk.injEq] at hf1
      obtain ⟨ho1, hm1, hopts1⟩ := hf1
      unfold writeFile
      rw [h2, Option.some_bind, ← hm1, lookupA_insertA_self, ← ho1]

/-- C1 witness: the theorem applied to two concrete resources sharing
resourceId r, once through the bufferView path and once through the
separate-file path. -/
theorem dedup_same_target_single_write_witness :
    ((writeBufferView (writeBufferView {} c1Res []).1 c1Res2
        (writeBufferView {} c1Res []).2.2).2.1.bufferView =
      (writeBufferView {} c1Res []).2.1.bufferView ∧
      (writeBufferView {} c1Res []).1.bufferPool =
        ({} : Gltf).bufferPool ++ [c1Res.source.toBuffer] ∧
      (writeBufferView (writeBufferView {} c1Res []).1 c1Res2
        (writeBufferView {} c1Res []).2.2).1 = (writeBufferView {} c1Res []).1 ∧
      (writeBufferView (writeBufferView {} c1Res []).1 c1Res2
        (writeBufferView {} c1Res []).2.2).2.2 = (writeBufferView {} c1Res []).2.2) ∧
    writeFile {} c1Res2 1 ".bin" c1Map c1Opts1 =
      .ok ({ c1Res2 with bufferView := none, uri := c1FileOut.uri }, c1Map, c1Opts1) :=
  ⟨dedup_same_target_single_write.1 {} (writeBufferView {} c1Res []).1
      (writeBufferView (writeBufferView {} c1Res []).1 c1Res2
        (writeBufferView {} c1Res []).2.2).1 [] (writeBufferView {} c1Res []).2.2
      (writeBufferView (writeBufferView {} c1Res []).1 c1Res2
        (writeBufferView {} c1Res []).2.2).2.2 c1Res c1Res2
      (writeBufferView {} c1Res []).2.1
      (writeBufferView (writeBufferView {} c1Res []).1 c1Res2
        (writeBufferView {} c1Res []).2.2).2.1 "r" rfl rfl rfl rfl rfl,
    dedup_same_target_single_write.2 {} [] c1Opts0 c1Res c1Res2 c1FileOut 0 1 ".bin" "r"
      c1Map c1Opts1 rfl rfl rfl rfl⟩

/-- C5: for an image whose basis-encode branch is taken (encodeBasis set and
the stage-one extension differing from the guard literal), the JPEG
re-compression stage is never executed: the whole writeImage run is
indifferent to the raster re-encoder oracle, so the jpegCompressionRatio
option is silently dropped. -/
theorem writeImage_basis_branch_never_runs_gm (env : Env) (st : St) (i : Nat)
    (image : Resource) (fs1 : FileSystem) (ext1 : String)
    (g2 : List Nat → Nat → Except Err (List Nat))
    (himg : st.gltf.images.get? i = some image)
    (hbasis : st.options.encodeBasis = true)
    (h1 : imageStage1 env st.options st.fs image (env.uid i) = .ok (fs1, ext1))
    (hne : (ext1 != "ktx2") = true) :
    writeImage { env with gm := g2 } st i = writeImage env st i := by
  have henv1 : imageStage1 { env with gm := g2 } st.options st.fs image (env.uid i) =
      .ok (fs1, ext1) := h1
  have h2 : imageStage2 { env with gm := g2 } st.options fs1 (env.uid i) ext1 =
      imageStage2 env st.options fs1 (env.uid i) ext1 := by
    unfold imageStage2
    rw [hbasis]
    simp [hne]
  simp only [writeImage, himg, henv1, h1, h2]

/-- C5 witness: the theorem applied to the concrete basis-encode scenario. -/
theorem writeImage_basis_branch_never_runs_gm_witness :
    writeImage { c6Env with gm := c5Gm } c5St 0 = writeImage c6Env c5St 0 :=
  writeImage_basis_branch_never_runs_gm c6Env c5St 0 c6Image
    [("/tmp/image-0.png", [137, 80, 78, 71])] ".png" c5Gm rfl rfl rfl rfl

/-- C4 amended: when a JPEG re-compression chain completes successfully, the
produced jpg temp file is deleted once read back, but the original temp file
written by the first stage is not deleted: it is still present, with the
bytes the first stage put there, when the image is handed to the
externalization strategy. -/
theorem writeImage_jpeg_cleanup_partial (env : Env) (st : St) (i : Nat)
    (image : Resource) (fs1 : FileSystem) (ext1 : String)
    (himg : st.gltf.images.get? i = some image)
    (hbasis : st.options.encodeBasis = false)
    (hjpeg : jsTruthyNat st.options.jpegCompressionRatio = true)
    (h1 : imageStage1 env st.options st.fs image (env.uid i) = .ok (fs1, ext1))
    (hne : imgPath (env.uid i) ext1 ≠ imgPath (env.uid i) ".jpg")
    (hok : (writeImage env st i).2 = none) :
    lookupA (writeImage env st i).1.fs (imgPath (env.uid i) ".jpg") = none ∧
    lookupA (writeImage env st i).1.fs (imgPath (env.uid i) ext1) =
      lookupA fs1 (imgPath (env.uid i) ext1) ∧
    (lookupA fs1 (imgPath (env.uid i) ext1)).isSome := by
  have hfile := imageStage1_file_written env st.options st.fs image (env.uid i) fs1 ext1 h1
  obtain ⟨b, hb⟩ := Option.isSome_iff_exists.mp hfile
  have hEx : ∃ out, (writeImage env st i).1.fs =
      fsUnlink (fsWrite fs1 (imgPath (env.uid i) ".jpg") out)
        (imgPath (env.uid i) ".jpg") := by
    rcases hgm : env.gm b (st.options.jpegCompressionRatio.getD 0) with e | out
    · have h2e : imageStage2 env st.options fs1 (env.uid i) ext1 = .error e := by
        simp [imageStage2, fsRead, hbasis, hjpeg, hb, hgm]
      have hw : (writeImage env st i).2 = some e := by
        simp only [writeImage, himg, h1, h2e]
      rw [hw] at hok
      exact absurd hok (by simp)
    · have h2e : imageStage2 env st.options fs1 (env.uid i) ext1 =
          .ok (fsWrite fs1 (imgPath (env.uid i) ".jpg") out, none, ".jpg") := by
        simp [imageStage2, fsRead, hbasis, hjpeg, hb, hgm]
      have h3e : imageStage3 (fsWrite fs1 (imgPath (env.uid i) ".jpg") out)
          (env.uid i) ".jpg" =
          .ok (fsUnlink (fsWrite fs1 (imgPath (env.uid i) ".jpg") out)
            (imgPath (env.uid i) ".jpg"), out) := by
        simp [imageStage3, fsRead, fsWrite, lookupA_insertA_self]
      refine ⟨out, ?_⟩
      simp only [writeImage, himg, h1, h2e, h3e] at hok ⊢
      split at hok
      · simp at hok
      · rename_i st4 image4 heq
        have heq0 := heq
        unfold writeResourceSt at heq0
        split at heq0
        · cases heq0
        · rename_i r hwres
          simp only [Except.ok.injEq, Prod.mk.injEq] at heq0
          obtain ⟨hst4, himg4⟩ := heq0
          simp only [heq]
          subst hst4
          simp [setImage, apply_ite]
  obtain ⟨out, hout⟩ := hEx
  rw [hout]
  refine ⟨lookupA_fsUnlink_self _ _, ?_, hfile⟩
  rw [lookupA_fsUnlink_ne _ _ _ hne]
  exact lookupA_insertA_ne fs1 (imgPath (env.uid i) ".jpg") (imgPath (env.uid i) ext1) out hne

/-- C4 amended witness: the theorem applied to the concrete JPEG scenario. -/
theorem writeImage_jpeg_cleanup_partial_witness :
    lookupA (writeImage c4Env c4St 0).1.fs (imgPath (c4Env.uid 0) ".jpg") = none ∧
    lookupA (writeImage c4Env c4St 0).1.fs (imgPath (c4Env.uid 0) ".png") =
      lookupA [("/tmp/image-u.png", [137, 80])] (imgPath (c4Env.uid 0) ".png") ∧
    (lookupA [("/tmp/image-u.png", [137, 80])] (imgPath (c4Env.uid 0) ".png")).isSome :=
  writeImage_jpeg_cleanup_partial c4Env c4St 0 c4Image
    [("/tmp/image-u.png", [137, 80])] ".png" rfl rfl rfl rfl (by decide) rfl

end GltfPipeline
